import Mathlib

/-
Verification of the incremental-build and file-watch coordinator in
src/Eleventy.js. The definitions below are a shallow embedding of the
coordinator code. Collaborators that live outside this file of the
repository (EleventyWatch, EleventyWatchTargets, PathNormalizer,
TemplatePath, PathPrefixer, the error handler and the logger) are
modelled from the specification at their interface boundary; each such
definition carries a doc comment saying so.
-/

namespace Eleventy

/-- Changed paths are plain strings. -/
abbrev Path := String

/-- Prefix test computed on the character list of a string, so that concrete
instances reduce inside the kernel. -/
def strStartsWith (s pre : String) : Bool :=
  pre.data.isPrefixOf s.data

/-- Suffix test computed on the character list of a string. -/
def strEndsWith (s suf : String) : Bool :=
  suf.data.isSuffixOf s.data

/-- Drop of leading characters computed on the character list of a string. -/
def strDrop (s : String) (n : Nat) : String :=
  String.mk (s.data.drop n)

/-- Modelled from the spec: external TemplatePath.addLeadingDotSlash enforces the
leading-dot-slash convention on relative paths. -/
def addLeadingDotSlash (p : Path) : Path :=
  if p = "." || p = ".." then p ++ "/"
  else if strStartsWith p "./" || strStartsWith p "../" || strStartsWith p "/" then p
  else "./" ++ p

/-- Modelled from the spec: external PathNormalizer.normalizeSeperator maps the
platform path separator to forward slashes so comparisons use one consistent
separator. -/
def normalizeSeperator (p : Path) : Path :=
  String.mk (p.data.map (fun c => if c = '\\' then '/' else c))

/-- Normalization applied to each queue member inside the source method
shouldResetConfig (source lines 815 to 825): leading dot slash first, then
separator normalization. -/
def normalizePath (p : Path) : Path :=
  normalizeSeperator (addLeadingDotSlash p)

/-- Modelled from the spec: external TemplatePath.normalize gives a changed path a
consistent separator before it enters the watch pipeline (source line 1105). -/
def templatePathNormalize (p : Path) : Path :=
  normalizeSeperator p

/-- Embedding of shouldTriggerConfigReset (source lines 792 to 812). The declared
local project config files and the forward dependency lookup of the external
EleventyWatchTargets graph are passed as arguments. Returns true when a changed
file equals a declared config file, or when it is among the recorded dependencies
of some declared config file. -/
def shouldTriggerConfigReset (configFiles : List Path) (depsOf : Path → List Path)
    (changedFiles : List Path) : Bool :=
  changedFiles.any (fun filePath => configFiles.contains filePath)
  || configFiles.any (fun configFilePath =>
       changedFiles.any (fun filePath => (depsOf configFilePath).contains filePath))

/-- Embedding of the underscored shouldResetConfig method (source lines 815 to 825):
an empty queue never resets; otherwise each queue member is normalized and the
question is delegated to shouldTriggerConfigReset. -/
def shouldResetConfig (configFiles : List Path) (depsOf : Path → List Path)
    (activeQueue : List Path) : Bool :=
  if activeQueue.length = 0 then false
  else shouldTriggerConfigReset configFiles depsOf (activeQueue.map normalizePath)

/-- Insert a path at the end of a queue unless it is already present. -/
def pushDedup (l : List Path) (p : Path) : List Path :=
  if l.contains p then l else l ++ [p]

/-- Modelled from the spec: the external EleventyWatch manager owns the
build-running flag, the pending queue of changed paths not yet assigned to a
build pass, and the active queue snapshot owned by the in-flight build (spec
sections 3 and 4.3). -/
structure EleventyWatch where
  isActive : Bool
  pendingQueue : List Path
  activeQueue : List Path
  deriving DecidableEq, Repr

/-- Modelled from the spec: query of the build-running flag. -/
def EleventyWatch.isBuildRunning (w : EleventyWatch) : Bool :=
  w.isActive

/-- Modelled from the spec: marking the build as running snapshots the queued
paths as the active queue of this cycle and clears them from the pending queue. -/
def EleventyWatch.setBuildRunning (w : EleventyWatch) : EleventyWatch :=
  { w with isActive := true, activeQueue := w.pendingQueue, pendingQueue := [] }

/-- Modelled from the spec: finishing a build clears the running flag and drops
the active snapshot; paths queued during the build stay pending. -/
def EleventyWatch.setBuildFinished (w : EleventyWatch) : EleventyWatch :=
  { w with isActive := false, activeQueue := [] }

/-- Modelled from the spec: a notification path is normalized to the
leading-dot-slash convention and appended to the queue with path-set dedup
semantics. -/
def EleventyWatch.addToPendingQueue (w : EleventyWatch) (p : Path) : EleventyWatch :=
  { w with pendingQueue := pushDedup w.pendingQueue (addLeadingDotSlash p) }

/-- Modelled from the spec: the snapshot owned by the in-flight build. -/
def EleventyWatch.getActiveQueue (w : EleventyWatch) : List Path :=
  w.activeQueue

/-- Modelled from the spec: number of changed paths waiting for the next cycle. -/
def EleventyWatch.getPendingQueueSize (w : EleventyWatch) : Nat :=
  w.pendingQueue.length

/-- Observable events of the watch-cycle driver. -/
inductive WatchEvent where
  | buildStart (queue : List Path) (viaReset : Bool)
  | buildFinish
  | logRunAgain (changes : Nat)
  | logWatching
  deriving DecidableEq, Repr

/-- Embedding of the watch-cycle driver, the underscored watch method (source
lines 833 to 922). The guard returns immediately while a build is running.
Otherwise the cycle marks the build running, snapshots the queue, runs one build
pass, finishes, and then either immediately drains the pending queue with one
recursive invocation (no debounce delay) or reports the idle watching state.
The arrivals argument lists, for each successive cycle, the batch of watcher
notifications that land while that cycle is building; with no further arrivals
the pending queue after the snapshot is empty, so the run-again branch cannot
fire and the driver reports the idle state directly. -/
def watchDrive (viaReset : Bool) (w : EleventyWatch) :
    List (List Path) → List WatchEvent × EleventyWatch
  | [] =>
    if w.isBuildRunning then ([], w)
    else
      let w1 := w.setBuildRunning
      ([WatchEvent.buildStart w1.getActiveQueue viaReset, WatchEvent.buildFinish,
        WatchEvent.logWatching], w1.setBuildFinished)
  | batch :: rest =>
    if w.isBuildRunning then ([], w)
    else
      let w1 := w.setBuildRunning
      let w2 := batch.foldl EleventyWatch.addToPendingQueue w1
      let w3 := w2.setBuildFinished
      if 0 < w3.getPendingQueueSize then
        let next := watchDrive false w3 rest
        (WatchEvent.buildStart w1.getActiveQueue viaReset :: WatchEvent.buildFinish ::
          WatchEvent.logRunAgain w3.getPendingQueueSize :: next.1, next.2)
      else
        ([WatchEvent.buildStart w1.getActiveQueue viaReset, WatchEvent.buildFinish,
          WatchEvent.logWatching], w3)

/-- Embedding of one watcher notification as handled by the debounced watchRun
closure (source lines 1104 to 1116): the path is normalized, the config-reset
decision is computed from that single path alone, the path joins the watch
queue, and the pending debounce timer is cleared and restarted carrying this
reset decision. The second component is the timer state: some flag means a
pending timer whose firing will invoke the watch driver with that flag. -/
def watchNotify (configFiles : List Path) (depsOf : Path → List Path)
    (st : EleventyWatch × Option Bool) (rawPath : Path) : EleventyWatch × Option Bool :=
  let p := templatePathNormalize rawPath
  let isResetConfig := shouldResetConfig configFiles depsOf [p]
  (st.1.addToPendingQueue p, some isResetConfig)

/-- State after a burst of notifications arriving inside one debounce window,
starting with no pending timer. -/
def burstState (configFiles : List Path) (depsOf : Path → List Path)
    (w : EleventyWatch) (burst : List Path) : EleventyWatch × Option Bool :=
  burst.foldl (watchNotify configFiles depsOf) (w, none)

/-- Checks that build events are strictly serialized: scanning with an in-build
flag, a build may start only when no build is in flight, may finish only when
one is, and no build is left open at the end. -/
def serializedFrom : Bool → List WatchEvent → Bool
  | inBuild, [] => !inBuild
  | inBuild, WatchEvent.buildStart _ _ :: rest => !inBuild && serializedFrom true rest
  | inBuild, WatchEvent.buildFinish :: rest => inBuild && serializedFrom false rest
  | inBuild, _ :: rest => serializedFrom inBuild rest

/-- The events allowed to follow a finished build: either the run-again log
immediately followed by the next build start, or the idle watching log ending
the trace. -/
def finishFollowupOk : List WatchEvent → Bool
  | WatchEvent.logRunAgain _ :: WatchEvent.buildStart _ _ :: _ => true
  | [WatchEvent.logWatching] => true
  | _ => false

/-- Every build finish in the trace is immediately followed by an allowed
follow-up. -/
def afterFinishOk : List WatchEvent → Bool
  | [] => true
  | WatchEvent.buildFinish :: rest => finishFollowupOk rest && afterFinishOk rest
  | _ :: rest => afterFinishOk rest

/-- One entry of the template results produced by the write pipeline. -/
structure TemplateEntry where
  inputPath : String
  url : String
  deriving DecidableEq, Repr

/-- Modelled from the spec: external TemplatePath.startsWithSubPath decides
whether a path lies under a base directory. -/
def startsWithSubPath (full base : Path) : Bool :=
  full = base || strStartsWith (addLeadingDotSlash full) (addLeadingDotSlash base ++ "/")

/-- Modelled from the spec: external PathPrefixer normalization resolves the
configured path prefix to an absolute URL path. -/
def normalizedPathPrefixOf (s : String) : String :=
  if s = "" then "/" else if strStartsWith s "/" then s else "/" ++ s

/-- Modelled from the spec: external PathPrefixer.joinUrlParts joins the path
prefix onto a template URL with single slash separation. -/
def joinUrlParts (a b : String) : String :=
  if a = "" then b
  else if strEndsWith a "/" then
    (if strStartsWith b "/" then a ++ strDrop b 1 else a ++ b)
  else (if strStartsWith b "/" then a ++ b else a ++ "/" ++ b)

/-- The payload published to the reload layer after a successful watch build. -/
structure ReloadPayload where
  files : List Path
  subtype : Option String
  templates : List TemplateEntry
  deriving DecidableEq, Repr

/-- Embedding of the style-only check (source lines 880 to 886): every active
queue member is a css input file outside the includes directory. The external
hasAllQueueFiles helper is modelled from the spec as a check over every path of
the active queue. -/
def onlyCssChanges (activeQueue : List Path) (includesDir : Path) : Bool :=
  activeQueue.all (fun p => strEndsWith p ".css" && !(startsWithSubPath p includesDir))

/-- Embedding of the reload payload computation on the success branch of the
watch cycle (source lines 892 to 907): the changed files are the active queue,
the subtype is css exactly on the style-only fast path, and the template results
are flattened, stripped of empty entries, and have the path prefix joined onto
each URL. -/
def computeReloadPayload (activeQueue : List Path) (includesDir : Path)
    (pathPrefixSetting : String)
    (templateResults : List (List (Option TemplateEntry))) : ReloadPayload :=
  let prefixNormalized := normalizedPathPrefixOf pathPrefixSetting
  { files := activeQueue
    subtype := if onlyCssChanges activeQueue includesDir then some "css" else none
    templates := (templateResults.flatten.filterMap id).map
      (fun entry => { entry with url := joinUrlParts prefixNormalized entry.url }) }

/-- The three output targets accepted by executeBuild. -/
inductive OutputTarget where
  | fs
  | json
  | ndjson
  deriving DecidableEq, Repr

/-- Observable events of one build pass. -/
inductive BuildEvent where
  | beforeBuild
  | afterBuild
  | errorReport (fatal : Bool) (msg : String)
  | benchFinish
  | summaryLine (msg : String) (color : String)
  deriving DecidableEq, Repr

/-- Counters exposed by the write pipeline for the finish log. -/
structure WriterCounts where
  writeCount : Nat
  skippedCount : Nat
  copyCount : Nat
  deriving DecidableEq, Repr

/-- What executeBuild hands back to a caller it does not throw at. -/
inductive ExecOutcome where
  | ok
  | errObj (e : String)
  deriving DecidableEq, Repr

/-- Embedding of simplePlural from Util/Pluralize, modelled from its standard
behavior: singular exactly for count one. -/
def simplePlural (count : Nat) (singular plural : String) : String :=
  if count = 1 then singular else plural

/-- Embedding of logFinished (source lines 338 to 377). The elapsed time and the
per-file milliseconds are preformatted strings because the source formats
floating point numbers; the count logic is exact. The time unit is always the
plural form because the source passes the formatted time string, which never
strictly equals the number one. -/
def logFinished (counts : WriterCounts) (timeStr perFileStr version : String) : String :=
  let slashRet :=
    (if counts.copyCount ≠ 0 then
      ["Copied " ++ toString counts.copyCount ++ " " ++
        simplePlural counts.copyCount "file" "files"]
    else []) ++
    ["Wrote " ++ toString counts.writeCount ++ " " ++
      simplePlural counts.writeCount "file" "files" ++
      (if counts.skippedCount ≠ 0 then
        " (skipped " ++ toString counts.skippedCount ++ ")"
      else "")]
  let ret := [String.intercalate " / " slashRet,
    "in " ++ timeStr ++ " seconds",
    if 10 ≤ counts.writeCount then
      "(" ++ perFileStr ++ "ms each, v" ++ version ++ ")"
    else
      "(v" ++ version ++ ")"]
  String.intercalate " " ret

/-- Embedding of executeBuild (source lines 1206 to 1311) over an abstract write
pipeline outcome. The try block emits the before notification and, on success,
the after notification. The catch block reports the error, re-raising it only
for the script source; for any other source it reports the error as fatal and
returns an object carrying the error. The finally block always finalizes
telemetry and, for the fs target only, prints the one summary line whose color
records failure. Events are listed in execution order; an Except.error second
component means the error was re-raised to the caller after the finally block
ran. -/
def executeBuild (source : String) (target : OutputTarget)
    (writerOutcome : Except String Unit) (counts : WriterCounts)
    (timeStr perFileStr version : String) :
    List BuildEvent × Except String ExecOutcome :=
  let body : List BuildEvent × Bool × Except String ExecOutcome :=
    match writerOutcome with
    | Except.ok _ =>
        ([BuildEvent.beforeBuild, BuildEvent.afterBuild], false, Except.ok ExecOutcome.ok)
    | Except.error e =>
        if source = "script" then
          ([BuildEvent.beforeBuild,
            BuildEvent.errorReport false "Problem writing Eleventy templates"], true,
            Except.error e)
        else
          ([BuildEvent.beforeBuild,
            BuildEvent.errorReport true "Problem writing Eleventy templates"], true,
            Except.ok (ExecOutcome.errObj e))
  (body.1 ++
    (BuildEvent.benchFinish ::
      (if target = OutputTarget.fs then
        [BuildEvent.summaryLine (logFinished counts timeStr perFileStr version)
          (if body.2.1 then "red" else "green")]
      else [])),
    body.2.2)

/-- Recognizer for the summary line event. -/
def isSummaryLine : BuildEvent → Bool
  | BuildEvent.summaryLine _ _ => true
  | _ => false

/-- Number of summary lines printed by a build pass. -/
def summaryCount (events : List BuildEvent) : Nat :=
  events.countP isSummaryLine

/-- A component instance eligible for the private carryover cache: whether it
exposes a caches getter, the declared cacheable field names, and its current
fields. -/
structure CacheInstance (V : Type) where
  hasCaches : Bool
  caches : List String
  fields : String → Option V

/-- Assignment of one field on an instance. -/
def CacheInstance.setField {V : Type} (inst : CacheInstance V) (k : String)
    (v : Option V) : CacheInstance V :=
  { inst with fields := fun k2 => if k2 = k then v else inst.fields k2 }

/-- The snapshot taken on the capture path of the cache method: current values of
the declared cacheable fields. -/
def captureCaches {V : Type} (inst : CacheInstance V) : List (String × Option V) :=
  inst.caches.map (fun k => (k, inst.fields k))

/-- The restore path of the cache method: copy each captured field onto the
instance. -/
def restoreCaches {V : Type} (snapshot : List (String × Option V))
    (inst : CacheInstance V) : CacheInstance V :=
  snapshot.foldl (fun i kv => i.setField kv.1 kv.2) inst

/-- Embedding of the underscored cache method (source lines 379 to 402): the
private cache map is created on first use; an instance without a caches getter
is rejected; if a snapshot for the key exists its fields are copied onto the
instance, otherwise the currently declared cacheable fields are captured under
the key. -/
def eleventyCacheOp {V : Type}
    (privateCaches : Option (List (String × List (String × Option V))))
    (key : String) (inst : CacheInstance V) :
    Except String (List (String × List (String × Option V)) × CacheInstance V) :=
  let pc := privateCaches.getD []
  if inst.hasCaches = false then
    Except.error "To use _cache you need a caches getter object"
  else
    match pc.lookup key with
    | some snapshot => Except.ok (pc, restoreCaches snapshot inst)
    | none => Except.ok (pc ++ [(key, captureCaches inst)], inst)

/-- Embedding of the cache interaction of init (source lines 462 to 467): only
when the cycle is not a config reset is the cache method invoked, once, with the
TemplateWriter key and the fresh writer instance. -/
def initCacheStep {V : Type} (viaConfigReset : Bool)
    (privateCaches : Option (List (String × List (String × Option V))))
    (writer : CacheInstance V) :
    Except String (Option (List (String × List (String × Option V))) × CacheInstance V) :=
  if viaConfigReset = false then
    match eleventyCacheOp privateCaches "TemplateWriter" writer with
    | Except.ok (pc, w) => Except.ok (some pc, w)
    | Except.error e => Except.error e
  else
    Except.ok (privateCaches, writer)

/-- The pieces of Eleventy instance state touched by setIncrementalFile. -/
structure IncrementalState where
  isRunInitialBuild : Bool
  isIncremental : Bool
  watchManagerIncremental : Bool
  programmaticApiIncrementalFile : Option String
  deriving DecidableEq, Repr

/-- Embedding of setIncrementalBuild (source lines 287 to 290): sets incremental
mode on the instance and on the watch manager. -/
def setIncrementalBuild (st : IncrementalState) (isIncremental : Bool) : IncrementalState :=
  { st with isIncremental := isIncremental, watchManagerIncremental := isIncremental }

/-- Embedding of setIgnoreInitial (source lines 299 to 301). -/
def setIgnoreInitial (st : IncrementalState) (ignoreInitialBuild : Bool) : IncrementalState :=
  { st with isRunInitialBuild := !ignoreInitialBuild }

/-- Truthiness of an optional string argument in the source language: absent and
empty are falsy. -/
def jsTruthyString : Option String → Bool
  | none => false
  | some s => !(s == "")

/-- Embedding of setIncrementalFile (source lines 656 to 664): a truthy path
turns on ignore-initial and incremental mode and records the file; a falsy
argument changes nothing. -/
def setIncrementalFile (st : IncrementalState) (incrementalFile : Option String) :
    IncrementalState :=
  if jsTruthyString incrementalFile then
    { setIncrementalBuild (setIgnoreInitial st true) true with
        programmaticApiIncrementalFile := incrementalFile }
  else st

/-- C3: the config reset gate fires exactly when some changed path equals a
declared config file or is a recorded dependency of one; paths outside those two
cases never fire it; the queue-level check compares normalized paths, so a queue
path whose normalization equals a declared config entry always fires the gate
regardless of platform separators. -/
theorem c3_config_reset_gate (configFiles : List Path) (depsOf : Path → List Path)
    (changedFiles activeQueue : List Path) :
    (shouldTriggerConfigReset configFiles depsOf changedFiles = true ↔
      ∃ f ∈ changedFiles, f ∈ configFiles ∨ ∃ c ∈ configFiles, f ∈ depsOf c)
    ∧ (shouldResetConfig configFiles depsOf activeQueue = true ↔
      ∃ p ∈ activeQueue, normalizePath p ∈ configFiles
        ∨ ∃ c ∈ configFiles, normalizePath p ∈ depsOf c)
    ∧ (∀ p ∈ activeQueue, ∀ c ∈ configFiles, normalizePath p = c →
        shouldResetConfig configFiles depsOf activeQueue = true) := by
  have hgen : ∀ files : List Path,
      shouldTriggerConfigReset configFiles depsOf files = true ↔
        ∃ f ∈ files, f ∈ configFiles ∨ ∃ c ∈ configFiles, f ∈ depsOf c := by
    intro files
    simp only [shouldTriggerConfigReset, Bool.or_eq_true, List.any_eq_true,
      List.elem_iff]
    constructor
    · rintro (⟨f, hf, hcfg⟩ | ⟨c, hc, f, hf, hdep⟩)
      · exact ⟨f, hf, Or.inl hcfg⟩
      · exact ⟨f, hf, Or.inr ⟨c, hc, hdep⟩⟩
    · rintro ⟨f, hf, hcfg | ⟨c, hc, hdep⟩⟩
      · exact Or.inl ⟨f, hf, hcfg⟩
      · exact Or.inr ⟨c, hc, f, hf, hdep⟩
  have hqueue : shouldResetConfig configFiles depsOf activeQueue = true ↔
      ∃ p ∈ activeQueue, normalizePath p ∈ configFiles
        ∨ ∃ c ∈ configFiles, normalizePath p ∈ depsOf c := by
    unfold shouldResetConfig
    rcases activeQueue with _ | ⟨q, qs⟩
    · simp
    · rw [if_neg (by simp)]
      rw [hgen]
      constructor
      · rintro ⟨f, hf, h⟩
        rw [List.mem_map] at hf
        obtain ⟨p, hp, rfl⟩ := hf
        exact ⟨p, hp, h⟩
      · rintro ⟨p, hp, h⟩
        exact ⟨normalizePath p, List.mem_map_of_mem normalizePath hp, h⟩
  refine ⟨hgen changedFiles, hqueue, ?_⟩
  intro p hp c hc hnorm
  exact hqueue.mpr ⟨p, hp, Or.inl (hnorm ▸ hc)⟩

/-- C3 witness: a backslash-separated changed path normalizes onto the declared
config entry and fires the gate. -/
theorem c3_witness :
    "config\\eleventy.config.js" ∈ ["config\\eleventy.config.js"]
    ∧ "./config/eleventy.config.js" ∈ (["./config/eleventy.config.js"] : List Path)
    ∧ normalizePath "config\\eleventy.config.js" = "./config/eleventy.config.js"
    ∧ shouldResetConfig ["./config/eleventy.config.js"] (fun _ => [])
        ["config\\eleventy.config.js"] = true := by
  refine ⟨by decide, by decide, by decide, ?_⟩
  exact (c3_config_reset_gate ["./config/eleventy.config.js"] (fun _ => [])
    [] ["config\\eleventy.config.js"]).2.2 "config\\eleventy.config.js" (by decide)
    "./config/eleventy.config.js" (by decide) (by decide)

/-- C2 counterexample: a burst of two notifications inside one debounce window,
the declared config file first and an ordinary content file last. The active
queue of the resulting cycle contains the config entry, so the claimed rule
demands a reset, yet the timer flag the cycle receives is the one computed from
the last notification alone, which is false. Reversing the arrival order flips
the flag, refuting order independence. -/
theorem c2_counterexample :
    (burstState ["./eleventy.config.js"] (fun _ => []) ⟨false, [], []⟩
        ["eleventy.config.js", "content/post.md"]).2 = some false
    ∧ shouldResetConfig ["./eleventy.config.js"] (fun _ => [])
        (burstState ["./eleventy.config.js"] (fun _ => []) ⟨false, [], []⟩
          ["eleventy.config.js", "content/post.md"]).1.pendingQueue = true
    ∧ (burstState ["./eleventy.config.js"] (fun _ => []) ⟨false, [], []⟩
        ["content/post.md", "eleventy.config.js"]).2 = some true := by
  refine ⟨by decide, by decide, by decide⟩

/-- C2 as amended: the config-reset decision of a debounced cycle is computed
per notification from that single changed path, and the cycle triggered by a
burst receives the decision attached to the last notification of the burst,
not a decision over the whole active queue. -/
theorem c2_last_notification_decides (configFiles : List Path)
    (depsOf : Path → List Path) (w : EleventyWatch) (burst : List Path) (p : Path) :
    (burstState configFiles depsOf w (burst ++ [p])).2
      = some (shouldResetConfig configFiles depsOf [templatePathNormalize p]) := by
  simp [burstState, List.foldl_append, watchNotify]

/-- C1: the watch-cycle driver returns immediately, emitting no events and
leaving the manager untouched, whenever a build is already running; and every
trace it emits is strictly serialized, so at most one build is in flight and a
later cycle never starts before the earlier one finishes. -/
theorem c1_single_flight (viaReset : Bool) (w : EleventyWatch)
    (arrivals : List (List Path)) :
    (w.isBuildRunning = true → watchDrive viaReset w arrivals = ([], w))
    ∧ serializedFrom false (watchDrive viaReset w arrivals).1 = true := by
  induction arrivals generalizing viaReset w with
  | nil =>
    refine ⟨fun h => by simp [watchDrive, h], ?_⟩
    by_cases h : w.isBuildRunning
    · simp [watchDrive, h, serializedFrom]
    · simp [watchDrive, h, serializedFrom]
  | cons batch rest ih =>
    refine ⟨fun h => by simp [watchDrive, h], ?_⟩
    by_cases h : w.isBuildRunning
    · simp [watchDrive, h, serializedFrom]
    · by_cases h2 : 0 <
        ((batch.foldl EleventyWatch.addToPendingQueue
          w.setBuildRunning).setBuildFinished).getPendingQueueSize
      · have hrec := (ih false
          ((batch.foldl EleventyWatch.addToPendingQueue
            w.setBuildRunning).setBuildFinished)).2
        simp [watchDrive, h, h2, serializedFrom, hrec]
      · simp [watchDrive, h, h2, serializedFrom]

/-- C1 witness: with a build already running the driver is a no-op, and a
concrete idle run produces a serialized trace. -/
theorem c1_witness :
    watchDrive false ⟨true, [], ["./a.md"]⟩ [["./b.md"]]
      = ([], ⟨true, [], ["./a.md"]⟩)
    ∧ serializedFrom false
        (watchDrive false ⟨false, ["./a.md"], []⟩ [["./b.md"]]).1 = true :=
  ⟨(c1_single_flight false ⟨true, [], ["./a.md"]⟩ [["./b.md"]]).1 rfl,
    (c1_single_flight false ⟨false, ["./a.md"], []⟩ [["./b.md"]]).2⟩

/-- Helper: unfolding of the driver on an idle manager with no further
arrivals; the pending queue is empty after the snapshot, so the cycle ends in
the idle watching state. -/
theorem watchDrive_nil_idle (viaReset : Bool) (w : EleventyWatch)
    (h : w.isBuildRunning = false) :
    watchDrive viaReset w []
      = ([WatchEvent.buildStart w.pendingQueue viaReset, WatchEvent.buildFinish,
          WatchEvent.logWatching], w.setBuildRunning.setBuildFinished) := by
  simp only [watchDrive]
  rw [if_neg (by simp [h])]
  rfl

/-- Helper: unfolding of the driver on an idle manager when the mid-build batch
leaves work pending; the follow-up cycle starts immediately. -/
theorem watchDrive_cons_pos (viaReset : Bool) (w : EleventyWatch)
    (batch : List Path) (rest : List (List Path)) (h : w.isBuildRunning = false)
    (h2 : 0 < ((batch.foldl EleventyWatch.addToPendingQueue
        w.setBuildRunning).setBuildFinished).getPendingQueueSize) :
    watchDrive viaReset w (batch :: rest)
      = (WatchEvent.buildStart w.pendingQueue viaReset :: WatchEvent.buildFinish ::
          WatchEvent.logRunAgain ((batch.foldl EleventyWatch.addToPendingQueue
            w.setBuildRunning).setBuildFinished).getPendingQueueSize ::
          (watchDrive false ((batch.foldl EleventyWatch.addToPendingQueue
            w.setBuildRunning).setBuildFinished) rest).1,
         (watchDrive false ((batch.foldl EleventyWatch.addToPendingQueue
            w.setBuildRunning).setBuildFinished) rest).2) := by
  simp only [watchDrive]
  rw [if_neg (by simp [h]), if_pos h2]
  rfl

/-- Helper: unfolding of the driver on an idle manager when nothing is pending
after the cycle; the idle watching state is reported. -/
theorem watchDrive_cons_neg (viaReset : Bool) (w : EleventyWatch)
    (batch : List Path) (rest : List (List Path)) (h : w.isBuildRunning = false)
    (h2 : ¬ 0 < ((batch.foldl EleventyWatch.addToPendingQueue
        w.setBuildRunning).setBuildFinished).getPendingQueueSize) :
    watchDrive viaReset w (batch :: rest)
      = ([WatchEvent.buildStart w.pendingQueue viaReset, WatchEvent.buildFinish,
          WatchEvent.logWatching],
         (batch.foldl EleventyWatch.addToPendingQueue
            w.setBuildRunning).setBuildFinished) := by
  simp only [watchDrive]
  rw [if_neg (by simp [h]), if_neg h2]
  rfl

/-- Helper: a driver invocation on an idle manager begins its trace with the
build start event whose active queue is the snapshot of the pending queue. -/
theorem watchDrive_head_start (viaReset : Bool) (w : EleventyWatch)
    (arrivals : List (List Path)) (h : w.isBuildRunning = false) :
    ∃ t, (watchDrive viaReset w arrivals).1
      = WatchEvent.buildStart w.pendingQueue viaReset :: t := by
  cases arrivals with
  | nil =>
    refine ⟨[WatchEvent.buildFinish, WatchEvent.logWatching], ?_⟩
    rw [watchDrive_nil_idle viaReset w h]
  | cons batch rest =>
    by_cases h2 : 0 < ((batch.foldl EleventyWatch.addToPendingQueue
        w.setBuildRunning).setBuildFinished).getPendingQueueSize
    · refine ⟨WatchEvent.buildFinish ::
        WatchEvent.logRunAgain ((batch.foldl EleventyWatch.addToPendingQueue
          w.setBuildRunning).setBuildFinished).getPendingQueueSize ::
        (watchDrive false ((batch.foldl EleventyWatch.addToPendingQueue
          w.setBuildRunning).setBuildFinished) rest).1, ?_⟩
      rw [watchDrive_cons_pos viaReset w batch rest h h2]
    · refine ⟨[WatchEvent.buildFinish, WatchEvent.logWatching], ?_⟩
      rw [watchDrive_cons_neg viaReset w batch rest h h2]

/-- C4: in every trace of the watch-cycle driver started idle, each finished
build is followed immediately either by the run-again log and the start of
exactly one follow-up cycle with no debounce delay, or by the idle watching
log that ends the trace; and the driver always hands back the manager with the
build-running flag cleared. -/
theorem c4_post_cycle (viaReset : Bool) (w : EleventyWatch)
    (arrivals : List (List Path)) (h : w.isBuildRunning = false) :
    afterFinishOk (watchDrive viaReset w arrivals).1 = true
    ∧ (watchDrive viaReset w arrivals).2.isBuildRunning = false := by
  induction arrivals generalizing viaReset w with
  | nil =>
    rw [watchDrive_nil_idle viaReset w h]
    exact ⟨rfl, rfl⟩
  | cons batch rest ih =>
    by_cases h2 : 0 < ((batch.foldl EleventyWatch.addToPendingQueue
        w.setBuildRunning).setBuildFinished).getPendingQueueSize
    · have hw3idle : ((batch.foldl EleventyWatch.addToPendingQueue
          w.setBuildRunning).setBuildFinished).isBuildRunning = false := rfl
      obtain ⟨t, ht⟩ := watchDrive_head_start false
        ((batch.foldl EleventyWatch.addToPendingQueue w.setBuildRunning).setBuildFinished)
        rest hw3idle
      have hihr := ih false
        ((batch.foldl EleventyWatch.addToPendingQueue w.setBuildRunning).setBuildFinished)
        hw3idle
      have hafter := hihr.1
      rw [ht] at hafter
      rw [watchDrive_cons_pos viaReset w batch rest h h2]
      constructor
      · rw [ht]
        simp only [afterFinishOk, finishFollowupOk, Bool.true_and]
        simpa [afterFinishOk] using hafter
      · exact hihr.2
    · rw [watchDrive_cons_neg viaReset w batch rest h h2]
      exact ⟨rfl, rfl⟩

/-- C4 witness: a concrete run with one mid-build arrival satisfies the
post-cycle discipline and ends with the flag cleared. -/
theorem c4_witness :
    afterFinishOk (watchDrive false ⟨false, ["./a.md"], []⟩ [["./b.md"]]).1 = true
    ∧ (watchDrive false ⟨false, ["./a.md"], []⟩ [["./b.md"]]).2.isBuildRunning = false :=
  c4_post_cycle false ⟨false, ["./a.md"], []⟩ [["./b.md"]] rfl

/-- Helper: the path just pushed with dedup semantics is a member of the
resulting queue. -/
theorem mem_pushDedup (l : List Path) (p : Path) : p ∈ pushDedup l p := by
  unfold pushDedup
  by_cases hm : p ∈ l
  · rw [if_pos (List.elem_iff.mpr hm)]
    exact hm
  · rw [if_neg (fun hc => hm (List.elem_iff.mp hc))]
    exact List.mem_append_right l (List.mem_singleton.mpr rfl)

/-- C8 counterexample: the notification handler clears and restarts the
debounce timer unconditionally, so a notification arriving while a build is
running (here the manager flag is set and no timer is pending) leaves a
freshly started timer behind, refuting the claim that no timer is started or
restarted in that situation. -/
theorem c8_counterexample :
    ¬ ((watchNotify [] (fun _ => []) (⟨true, [], ["./a.md"]⟩, none) "b.md").2 = none) := by
  decide

/-- C8 as amended: a notification arriving while the build-running flag is set
is appended to the pending queue with dedup semantics, leaves the active
snapshot and the flag untouched, and the debounce timer is cleared and
restarted carrying the reset decision of this single path; the watch-driver
invocation that restarted timer schedules is a no-op for as long as the build
is running, so the notification takes effect only as part of the snapshot of
the follow-up cycle that starts after the in-flight build finishes. -/
theorem c8_during_build (configFiles : List Path) (depsOf : Path → List Path)
    (w : EleventyWatch) (timer : Option Bool) (rawPath : Path)
    (h : w.isBuildRunning = true) :
    ((watchNotify configFiles depsOf (w, timer) rawPath).1.pendingQueue
        = pushDedup w.pendingQueue (addLeadingDotSlash (templatePathNormalize rawPath)))
    ∧ (watchNotify configFiles depsOf (w, timer) rawPath).1.activeQueue = w.activeQueue
    ∧ (watchNotify configFiles depsOf (w, timer) rawPath).1.isBuildRunning = true
    ∧ (watchNotify configFiles depsOf (w, timer) rawPath).2
        = some (shouldResetConfig configFiles depsOf [templatePathNormalize rawPath])
    ∧ (∀ viaReset arrivals,
        watchDrive viaReset (watchNotify configFiles depsOf (w, timer) rawPath).1 arrivals
          = ([], (watchNotify configFiles depsOf (w, timer) rawPath).1))
    ∧ addLeadingDotSlash (templatePathNormalize rawPath)
        ∈ (watchNotify configFiles depsOf
            (w, timer) rawPath).1.setBuildFinished.setBuildRunning.activeQueue := by
  refine ⟨rfl, rfl, h, rfl, ?_, ?_⟩
  · intro viaReset arrivals
    have hact : (watchNotify configFiles depsOf (w, timer) rawPath).1.isBuildRunning
        = true := h
    cases arrivals with
    | nil => simp [watchDrive, hact]
    | cons b r => simp [watchDrive, hact]
  · exact mem_pushDedup w.pendingQueue (addLeadingDotSlash (templatePathNormalize rawPath))

/-- C8 witness: a concrete mid-build notification is queued pending. -/
theorem c8_witness :
    (⟨true, [], ["./x.md"]⟩ : EleventyWatch).isBuildRunning = true
    ∧ (watchNotify [] (fun _ => []) (⟨true, [], ["./x.md"]⟩, none) "b.md").1.pendingQueue
        = pushDedup [] (addLeadingDotSlash (templatePathNormalize "b.md")) :=
  ⟨rfl, (c8_during_build [] (fun _ => []) ⟨true, [], ["./x.md"]⟩ none "b.md" rfl).1⟩

/-- C5: when the write pipeline throws, the error is always reported; it is
re-raised to the caller exactly when the invocation source is script; in the
script case the trace runs, in order, the before notification, the non-fatal
error report, and the telemetry finalization, all before the error propagates;
in the non-script case the error is reported as fatal and the caller receives
an object carrying the error instead of a raised one. -/
theorem c5_error_policy (source : String) (target : OutputTarget) (e : String)
    (counts : WriterCounts) (timeStr perFileStr version : String) :
    ((executeBuild source target (Except.error e) counts timeStr perFileStr version).2
        = Except.error e ↔ source = "script")
    ∧ (∃ fatal, BuildEvent.errorReport fatal "Problem writing Eleventy templates"
        ∈ (executeBuild source target (Except.error e) counts timeStr perFileStr version).1)
    ∧ (source = "script" →
        (executeBuild source target (Except.error e) counts timeStr perFileStr version).1
          = BuildEvent.beforeBuild ::
            BuildEvent.errorReport false "Problem writing Eleventy templates" ::
            BuildEvent.benchFinish ::
            (if target = OutputTarget.fs then
              [BuildEvent.summaryLine (logFinished counts timeStr perFileStr version) "red"]
            else []))
    ∧ (¬ source = "script" →
        (executeBuild source target (Except.error e) counts timeStr perFileStr version).1
          = BuildEvent.beforeBuild ::
            BuildEvent.errorReport true "Problem writing Eleventy templates" ::
            BuildEvent.benchFinish ::
            (if target = OutputTarget.fs then
              [BuildEvent.summaryLine (logFinished counts timeStr perFileStr version) "red"]
            else [])
        ∧ (executeBuild source target (Except.error e) counts timeStr perFileStr version).2
          = Except.ok (ExecOutcome.errObj e)) := by
  by_cases hs : source = "script"
  · refine ⟨by simp [executeBuild, hs], ⟨false, ?_⟩, fun _ => by simp [executeBuild, hs],
      fun hns => absurd hs hns⟩
    simp [executeBuild, hs]
  · refine ⟨by simp [executeBuild, hs], ⟨true, ?_⟩, fun hyes => absurd hyes hs,
      fun _ => ⟨by simp [executeBuild, hs], by simp [executeBuild, hs]⟩⟩
    simp [executeBuild, hs]

/-- C5 witness: a concrete script-source failure re-raises after the ordered
report and finalization events. -/
theorem c5_witness :
    (("script" : String) = "script")
    ∧ (executeBuild "script" OutputTarget.fs (Except.error "boom") ⟨1, 0, 0⟩
        "0.10" "" "3.0.0").1
      = BuildEvent.beforeBuild ::
        BuildEvent.errorReport false "Problem writing Eleventy templates" ::
        BuildEvent.benchFinish ::
        (if OutputTarget.fs = OutputTarget.fs then
          [BuildEvent.summaryLine (logFinished ⟨1, 0, 0⟩ "0.10" "" "3.0.0") "red"]
        else []) :=
  ⟨rfl, (c5_error_policy "script" OutputTarget.fs "boom" ⟨1, 0, 0⟩
    "0.10" "" "3.0.0").2.2.1 rfl⟩

/-- C6 counterexample: a successful build pass with the json output target
prints no summary line at all, refuting the claim that every build pass prints
exactly one summary line regardless of the requested output target. -/
theorem c6_counterexample :
    ¬ (summaryCount (executeBuild "cli" OutputTarget.json (Except.ok ()) ⟨1, 0, 0⟩
        "0.10" "" "3.0.0").1 = 1) := by
  decide

/-- C6 as amended: every build pass runs the guaranteed finalization step that
finalizes telemetry regardless of outcome and target; exactly one summary line
is printed when the target is fs and none otherwise; for the fs target the
summary message is built from the file counts and elapsed time independently of
the outcome, failure only switching its color from green to red. -/
theorem c6_finalization (source : String) (target : OutputTarget)
    (writerOutcome : Except String Unit) (counts : WriterCounts)
    (timeStr perFileStr version : String) :
    BuildEvent.benchFinish
      ∈ (executeBuild source target writerOutcome counts timeStr perFileStr version).1
    ∧ summaryCount
        (executeBuild source target writerOutcome counts timeStr perFileStr version).1
      = (if target = OutputTarget.fs then 1 else 0)
    ∧ (target = OutputTarget.fs →
        BuildEvent.summaryLine (logFinished counts timeStr perFileStr version)
          (match writerOutcome with
            | Except.ok _ => "green"
            | Except.error _ => "red")
        ∈ (executeBuild source target writerOutcome counts timeStr perFileStr version).1) := by
  cases writerOutcome with
  | ok u =>
    refine ⟨by simp [executeBuild], ?_, fun ht => by simp [executeBuild, ht]⟩
    by_cases ht : target = OutputTarget.fs
    · simp [executeBuild, ht, summaryCount, isSummaryLine, List.countP_cons, List.countP_append]
    · simp [executeBuild, ht, summaryCount, isSummaryLine, List.countP_cons, List.countP_append]
  | error e =>
    by_cases hs : source = "script"
    · refine ⟨by simp [executeBuild, hs], ?_, fun ht => by simp [executeBuild, hs, ht]⟩
      by_cases ht : target = OutputTarget.fs
      · simp [executeBuild, hs, ht, summaryCount, isSummaryLine, List.countP_cons,
          List.countP_append]
      · simp [executeBuild, hs, ht, summaryCount, isSummaryLine, List.countP_cons,
          List.countP_append]
    · refine ⟨by simp [executeBuild, hs], ?_, fun ht => by simp [executeBuild, hs, ht]⟩
      by_cases ht : target = OutputTarget.fs
      · simp [executeBuild, hs, ht, summaryCount, isSummaryLine, List.countP_cons,
          List.countP_append]
      · simp [executeBuild, hs, ht, summaryCount, isSummaryLine, List.countP_cons,
          List.countP_append]

/-- C6 witness: a concrete failed fs build pass still finalizes telemetry and
prints its one red summary line. -/
theorem c6_witness :
    (OutputTarget.fs = OutputTarget.fs)
    ∧ BuildEvent.summaryLine (logFinished ⟨2, 1, 3⟩ "0.20" "" "3.0.0")
        (match (Except.error "boom" : Except String Unit) with
          | Except.ok _ => "green"
          | Except.error _ => "red")
      ∈ (executeBuild "cli" OutputTarget.fs (Except.error "boom") ⟨2, 1, 3⟩
          "0.20" "" "3.0.0").1 :=
  ⟨rfl, (c6_finalization "cli" OutputTarget.fs (Except.error "boom") ⟨2, 1, 3⟩
    "0.20" "" "3.0.0").2.2 rfl⟩

/-- C7: the published reload payload has subtype css exactly when every path in
the active queue of the cycle has the stylesheet extension and none lies under
the configured includes directory; the payload carries the active queue as its
changed files; and its template list consists of exactly the non-empty entries
of the flattened results, keeping their input paths and rewriting each URL to
include the configured path prefix. -/
theorem c7_reload_payload (activeQueue : List Path) (includesDir : Path)
    (pathPrefixSetting : String)
    (templateResults : List (List (Option TemplateEntry))) :
    ((computeReloadPayload activeQueue includesDir pathPrefixSetting
        templateResults).subtype = some "css" ↔
      ∀ p ∈ activeQueue,
        strEndsWith p ".css" = true ∧ startsWithSubPath p includesDir = false)
    ∧ (computeReloadPayload activeQueue includesDir pathPrefixSetting
        templateResults).files = activeQueue
    ∧ (computeReloadPayload activeQueue includesDir pathPrefixSetting
        templateResults).templates.length
      = (templateResults.flatten.filterMap id).length
    ∧ (∀ e ∈ (computeReloadPayload activeQueue includesDir pathPrefixSetting
        templateResults).templates,
        ∃ orig, some orig ∈ templateResults.flatten
          ∧ e.inputPath = orig.inputPath
          ∧ e.url = joinUrlParts (normalizedPathPrefixOf pathPrefixSetting) orig.url) := by
  refine ⟨?_, rfl, by simp only [computeReloadPayload, List.length_map], ?_⟩
  · constructor
    · intro hsub
      by_cases hall : onlyCssChanges activeQueue includesDir = true
      · intro p hp
        simp only [onlyCssChanges, List.all_eq_true, Bool.and_eq_true,
          Bool.not_eq_true'] at hall
        exact hall p hp
      · exfalso
        simp [computeReloadPayload, hall] at hsub
    · intro hforall
      have hall : onlyCssChanges activeQueue includesDir = true := by
        unfold onlyCssChanges
        rw [List.all_eq_true]
        intro p hp
        have hX := hforall p hp
        simp [hX.1, hX.2]
      simp [computeReloadPayload, hall]
  · intro e he
    simp only [computeReloadPayload, List.mem_map] at he
    obtain ⟨orig, hmem, rfl⟩ := he
    rw [List.mem_filterMap] at hmem
    obtain ⟨a, ha, haeq⟩ := hmem
    exact ⟨orig, haeq ▸ ha, rfl, rfl⟩

/-- C7 witness: a burst of stylesheet changes outside the includes directory
takes the style-only fast path. -/
theorem c7_witness :
    (∀ p ∈ (["./a.css", "./b.css"] : List Path),
      strEndsWith p ".css" = true ∧ startsWithSubPath p "./_includes" = false)
    ∧ (computeReloadPayload ["./a.css", "./b.css"] "./_includes" "blog"
        [[some ⟨"./t.md", "/t/"⟩]]).subtype = some "css" :=
  ⟨by decide,
    (c7_reload_payload ["./a.css", "./b.css"] "./_includes" "blog"
      [[some ⟨"./t.md", "/t/"⟩]]).1.mpr (by decide)⟩

/-- Helper: restoring a snapshot leaves every field outside the snapshot keys
untouched. -/
theorem restoreCaches_frame {V : Type} (snapshot : List (String × Option V))
    (inst : CacheInstance V) (k : String) (h : k ∉ snapshot.map Prod.fst) :
    (restoreCaches snapshot inst).fields k = inst.fields k := by
  induction snapshot generalizing inst with
  | nil => rfl
  | cons kv rest ih =>
    simp only [List.map_cons, List.mem_cons, not_or] at h
    have hstep : restoreCaches (kv :: rest) inst
        = restoreCaches rest (inst.setField kv.1 kv.2) := rfl
    rw [hstep, ih (inst.setField kv.1 kv.2) h.2]
    simp [CacheInstance.setField, h.1]

/-- Helper: restoring a snapshot with distinct keys writes each captured value
onto its field. -/
theorem restoreCaches_update {V : Type} (snapshot : List (String × Option V))
    (inst : CacheInstance V) (k : String) (v : Option V)
    (hnd : (snapshot.map Prod.fst).Nodup) (hmem : (k, v) ∈ snapshot) :
    (restoreCaches snapshot inst).fields k = v := by
  induction snapshot generalizing inst with
  | nil => cases hmem
  | cons kv rest ih =>
    have hstep : restoreCaches (kv :: rest) inst
        = restoreCaches rest (inst.setField kv.1 kv.2) := rfl
    rw [List.map_cons, List.nodup_cons] at hnd
    rcases List.mem_cons.mp hmem with heq | hrest
    · subst heq
      rw [hstep, restoreCaches_frame rest (inst.setField k v) k hnd.1]
      simp [CacheInstance.setField]
    · rw [hstep]
      exact ih (inst.setField kv.1 kv.2) hnd.2 hrest

/-- C9: when init runs without a config reset the carryover cache operation on
the TemplateWriter key runs exactly once: with no stored snapshot the declared
cacheable fields of the fresh writer are captured under the key and the writer
is untouched; with a stored snapshot every captured field is copied onto the
fresh writer and fields outside the snapshot stay untouched. When init runs via
a config reset the cache operation is not invoked at all, so the stored
snapshots and the writer are both unchanged. -/
theorem c9_carryover {V : Type} (pc : List (String × List (String × Option V)))
    (writer : CacheInstance V) (h : writer.hasCaches = true) :
    (initCacheStep true (some pc) writer = Except.ok (some pc, writer))
    ∧ (pc.lookup "TemplateWriter" = none →
        initCacheStep false (some pc) writer
          = Except.ok (some (pc ++ [("TemplateWriter", captureCaches writer)]), writer))
    ∧ (∀ snapshot, pc.lookup "TemplateWriter" = some snapshot →
        initCacheStep false (some pc) writer
          = Except.ok (some pc, restoreCaches snapshot writer))
    ∧ (∀ snapshot, pc.lookup "TemplateWriter" = some snapshot →
        (snapshot.map Prod.fst).Nodup →
          ∀ k v, (k, v) ∈ snapshot → (restoreCaches snapshot writer).fields k = v)
    ∧ (∀ snapshot, pc.lookup "TemplateWriter" = some snapshot →
        ∀ k, k ∉ snapshot.map Prod.fst →
          (restoreCaches snapshot writer).fields k = writer.fields k) := by
  have hno : ¬ writer.hasCaches = false := by simp [h]
  refine ⟨rfl, ?_, ?_, ?_, ?_⟩
  · intro hlook
    simp [initCacheStep, eleventyCacheOp, hno, hlook]
  · intro snapshot hlook
    simp [initCacheStep, eleventyCacheOp, hno, hlook]
  · intro snapshot _ hnd k v hmem
    exact restoreCaches_update snapshot writer k v hnd hmem
  · intro snapshot _ k hk
    exact restoreCaches_frame snapshot writer k hk

/-- C9 witness: a concrete restore copies the captured value onto the fresh
writer. -/
theorem c9_witness :
    ((⟨true, ["pathCache"], fun _ => none⟩ : CacheInstance Nat).hasCaches = true)
    ∧ ([("TemplateWriter", [("pathCache", some 3)])].lookup "TemplateWriter"
        = some [("pathCache", some 3)])
    ∧ (restoreCaches [("pathCache", some 3)]
        (⟨true, ["pathCache"], fun _ => none⟩ : CacheInstance Nat)).fields "pathCache"
      = some 3 :=
  ⟨rfl, rfl,
    (c9_carryover [("TemplateWriter", [("pathCache", some 3)])]
        (⟨true, ["pathCache"], fun _ => none⟩ : CacheInstance Nat) rfl).2.2.2.1
      [("pathCache", some 3)] rfl (by decide) "pathCache" (some 3) (by decide)⟩

/-- C10: calling setIncrementalFile with a truthy path records the incremental
file and, in addition, turns off the initial build and turns on incremental
mode on both the instance and the watch manager; calling it with a falsy
argument changes no state at all. -/
theorem c10_set_incremental_file (st : IncrementalState) (f : String)
    (h : ¬ f = "") :
    (setIncrementalFile st (some f)
      = { isRunInitialBuild := false, isIncremental := true,
          watchManagerIncremental := true, programmaticApiIncrementalFile := some f })
    ∧ setIncrementalFile st none = st
    ∧ setIncrementalFile st (some "") = st := by
  refine ⟨?_, rfl, rfl⟩
  have ht : jsTruthyString (some f) = true := by
    simp [jsTruthyString, h]
  simp [setIncrementalFile, ht, setIncrementalBuild, setIgnoreInitial]

/-- C10 witness: a concrete truthy incremental file flips the three flags and
records the file. -/
theorem c10_witness :
    (¬ ("./post.md" : String) = "")
    ∧ setIncrementalFile ⟨true, false, false, none⟩ (some "./post.md")
      = { isRunInitialBuild := false, isIncremental := true,
          watchManagerIncremental := true,
          programmaticApiIncrementalFile := some "./post.md" } :=
  ⟨by decide, (c10_set_incremental_file ⟨true, false, false, none⟩ "./post.md"
    (by decide)).1⟩

end Eleventy
